import Mathlib

/-!
Shallow embedding of the AetherSense chat-bot backend (src/chat-bot/main.py).

The program is a keyword-triggered enrichment pipeline: a request's last
user message is scanned for space-related vocabulary terms, matching
categories trigger NASA data fetchers, a textual briefing is prepended to
the conversation as a system message, and the result is forwarded to a
chat-completion provider, either buffered or streamed.

Modelling conventions:
- Python dict payloads are records holding exactly the fields the code
  reads; a fetcher result is Except String Payload, where the error case
  models the tagged error dict the Python fetcher returns after catching
  a transport exception (fetchers never raise past their boundary).
- All outbound HTTP traffic (NASA endpoints, the OpenAI client) is an
  environment oracle Env; the pipeline is a pure function of Env.
- Python floats for latitude and longitude are modelled as rationals:
  the only float operation the code performs on them is exact comparison
  with zero, which rationals model faithfully.
- The try/except wrapper of the context enricher is modelled separately
  (enhance_prompt_with_nasa_dataE) with an explicit exception oracle
  saying which internal step raises.
-/

/-- One chat message, mirroring the ChatMessage pydantic model and the
plain role/content dicts used throughout the pipeline. -/
structure ChatMessage where
  role : String
  content : String
deriving Repr, DecidableEq

/-- Python lower(): character-wise lower-casing (ASCII, which covers the
vocabulary and model identifiers involved). -/
def pyLower (s : String) : String :=
  String.mk (s.data.map Char.toLower)

/-- Substring containment on character lists: needle occurs contiguously
in the haystack. The empty needle occurs everywhere, as in Python. -/
def containsSub (needle : List Char) : List Char → Bool
  | [] => needle.isEmpty
  | c :: rest => needle.isPrefixOf (c :: rest) || containsSub needle rest

/-- Python membership test needle in hay on strings. -/
def pyIn (needle hay : String) : Bool :=
  containsSub needle.data hay.data

/-- The fixed vocabulary of extract_space_keywords, in source order.
The source list contains the term satellite twice. -/
def space_keywords_vocab : List String :=
  ["space", "mars", "moon", "sun", "solar", "asteroid", "comet", "planet",
   "galaxy", "star", "satellite", "orbit", "nasa", "astronomy", "cosmos",
   "universe", "earth", "weather", "satellite", "imagery", "space weather"]

/-- extract_space_keywords: appends, for each entry of the vocabulary list
in order, that entry when it is a substring of the lower-cased message. -/
def extract_space_keywords (message : String) : List String :=
  let message_lower := pyLower message
  space_keywords_vocab.filter (fun keyword => pyIn keyword message_lower)

/-- APOD payload: the fields the enricher reads from a successful
planetary/apod response. -/
structure ApodPayload where
  title : String
  explanation : String
  url : String
  date : String
deriving Repr, DecidableEq

/-- NEO payload: the field the enricher reads from a successful neo feed
response. -/
structure NeoPayload where
  element_count : Nat
deriving Repr, DecidableEq

/-- Mars weather payload: the field the enricher reads from a successful
insight_weather response. -/
structure MarsPayload where
  sol_keys : List String
deriving Repr, DecidableEq

/-- Earth imagery payload: the optional fields of the
NASAEarthImageryResponse model populated on success. -/
structure ImageryPayload where
  url : Option String
  date : Option String
deriving Repr, DecidableEq

/-- Outcome of one streaming chat-completion call: either the call raises
at setup, or it delivers a list of chunks (each chunk's delta content,
none when the delta or its content is missing) and then either finishes
normally or raises mid-stream after the listed chunks. -/
inductive StreamOutcome where
  | setupFail (e : String)
  | run (chunks : List (Option String)) (raisesAfter : Bool)
deriving Repr, DecidableEq

/-- Environment oracle: configuration plus the observable behaviour of
every outbound HTTP dependency for the current request. chatCreate is the
buffered chat-completion call (error = raised exception, ok = the optional
message content of the first choice); chatStream is the streaming call. -/
structure Env where
  defaultModel : String
  apod : Except String ApodPayload
  neo : Except String NeoPayload
  mars : Except String MarsPayload
  alerts : Except String Unit
  earthImagery : ℚ → ℚ → Option String → Except String ImageryPayload
  chatCreate : String → List ChatMessage → Except String (Option String)
  chatStream : String → List ChatMessage → StreamOutcome

/-- get_nasa_apod: one outbound call, exceptions already converted to a
tagged error by the fetcher; modelled by the environment oracle. -/
def get_nasa_apod (env : Env) : Except String ApodPayload :=
  env.apod

/-- get_nasa_neo_today: one outbound call scoped to today; modelled by the
environment oracle. -/
def get_nasa_neo_today (env : Env) : Except String NeoPayload :=
  env.neo

/-- get_nasa_mars_weather: one outbound call; modelled by the environment
oracle. -/
def get_nasa_mars_weather (env : Env) : Except String MarsPayload :=
  env.mars

/-- get_space_weather_alerts: one outbound call; modelled by the
environment oracle (the body shape is irrelevant to the pipeline). -/
def get_space_weather_alerts (env : Env) : Except String Unit :=
  env.alerts

/-- get_nasa_earth_imagery: one outbound call with lat, lon and optional
date; modelled by the environment oracle. -/
def get_nasa_earth_imagery (env : Env) (lat lon : ℚ) (date : Option String) :
    Except String ImageryPayload :=
  env.earthImagery lat lon date

/-- The loop over reversed(messages) picking the first message with role
user and taking its content. -/
def lastUserContent (messages : List ChatMessage) : Option String :=
  (messages.reverse.find? (fun msg => msg.role == "user")).map ChatMessage.content

/-- Category list guarding the APOD fetch. -/
def apodCat : List String :=
  ["space", "astronomy", "cosmos", "universe", "star", "galaxy"]

/-- Category list guarding the NEO fetch. -/
def neoCat : List String :=
  ["asteroid", "comet", "neo", "earth", "orbit"]

/-- Category list guarding the Mars weather fetch. -/
def marsCat : List String :=
  ["mars", "weather", "planet"]

/-- Category list guarding the space weather alerts fetch. -/
def alertsCat : List String :=
  ["space weather", "solar", "sun", "weather"]

/-- The Python condition any(keyword in cat for keyword in kws). -/
def categFires (cat : List String) (kws : List String) : Bool :=
  kws.any (fun keyword => cat.contains keyword)

/-- The check error not in data on a fetcher result: a success dict is
kept, a tagged error dict is dropped. -/
def okOrNone {α : Type} : Except String α → Option α
  | .ok a => some a
  | .error _ => none

/-- Fetcher invocation counts for one enricher run, one field per NASA
fetcher the enricher may call. -/
structure FetchCounts where
  apod : Nat
  neo : Nat
  mars : Nat
  alerts : Nat
deriving Repr, DecidableEq

/-- The briefing text nasa_context: the header naming the detected
keywords, one fixed-format section per successful payload in fetch order,
and the closing instruction. Section bodies carry the fields the code
interpolates (title, 200-character-truncated explanation, url, date for
APOD; element count for NEO; sol key count for Mars weather). -/
def renderBriefing (kws : List String)
    (apodData : Option ApodPayload) (neoData : Option NeoPayload)
    (marsData : Option MarsPayload) (alertsData : Option Unit) : String :=
  let header := "\nREAL NASA DATA FETCHED:\n- Space keywords detected: "
    ++ String.intercalate ", " kws ++ "\n\n"
  let apodSection := match apodData with
    | some a => "\nASTRONOMY PICTURE OF THE DAY:\n- Title: " ++ a.title
        ++ "\n- Explanation: " ++ a.explanation.take 200
        ++ "...\n- Image URL: " ++ a.url ++ "\n- Date: " ++ a.date ++ "\n"
    | none => ""
  let neoSection := match neoData with
    | some n => "\n\nNEAR EARTH OBJECTS TODAY:\n- Total objects: "
        ++ toString n.element_count ++ "\n- Data source: NASA NEO API\n"
    | none => ""
  let marsSection := match marsData with
    | some m => "\n\nMARS WEATHER:\n- Data available: Yes\n- Source: NASA InSight lander\n- Sol keys: "
        ++ toString m.sol_keys.length ++ " available\n"
    | none => ""
  let alertsSection := match alertsData with
    | some _ => "\n\nSPACE WEATHER:\n- Alerts available: Yes\n- Source: NASA DONKI\n"
    | none => ""
  header ++ apodSection ++ neoSection ++ marsSection ++ alertsSection
    ++ "\n\nUse this REAL NASA data to provide accurate, data-driven responses. Include specific details from the actual NASA data in your response.\n"

/-- enhance_prompt_with_nasa_data (try body, no internal exception): find
the last user message (empty content counts as absent, Python truthiness),
extract keywords, fire each of the four independent category tests, fetch
once per firing category, and when at least one fetch succeeded prepend
the briefing as a system message at position zero. Also returns how often
each fetcher was invoked. -/
def enhance_prompt_with_nasa_data (env : Env) (messages : List ChatMessage) :
    List ChatMessage × FetchCounts :=
  match lastUserContent messages with
  | none => (messages, ⟨0, 0, 0, 0⟩)
  | some user_message =>
    if user_message = "" then (messages, ⟨0, 0, 0, 0⟩) else
    let space_keywords := extract_space_keywords user_message
    if space_keywords.isEmpty then (messages, ⟨0, 0, 0, 0⟩) else
    let apodData := if categFires apodCat space_keywords
      then okOrNone (get_nasa_apod env) else none
    let neoData := if categFires neoCat space_keywords
      then okOrNone (get_nasa_neo_today env) else none
    let marsData := if categFires marsCat space_keywords
      then okOrNone (get_nasa_mars_weather env) else none
    let alertsData := if categFires alertsCat space_keywords
      then okOrNone (get_space_weather_alerts env) else none
    let counts : FetchCounts :=
      ⟨if categFires apodCat space_keywords then 1 else 0,
       if categFires neoCat space_keywords then 1 else 0,
       if categFires marsCat space_keywords then 1 else 0,
       if categFires alertsCat space_keywords then 1 else 0⟩
    if apodData.isSome || neoData.isSome || marsData.isSome || alertsData.isSome then
      (⟨"system", renderBriefing space_keywords apodData neoData marsData alertsData⟩ :: messages,
       counts)
    else
      (messages, counts)

/-- Internal steps of the enricher's try block at which an exception could
be raised. -/
inductive EnrStep where
  | locate
  | extract
  | fetchApod
  | fetchNeo
  | fetchMars
  | fetchAlerts
  | render
  | insert
deriving Repr, DecidableEq

/-- The enricher's try body under an exception oracle: exc says which
internal step raises. Error means an exception escaped the body; the
surrounding except handler of enhance_prompt_with_nasa_dataE turns it
into the original conversation. Fetch steps run, and so can raise, only
when their category fires; render and insert run only when some payload
succeeded. -/
def enhanceBody (exc : EnrStep → Bool) (env : Env) (messages : List ChatMessage) :
    Except Unit (List ChatMessage) :=
  if exc .locate then .error () else
  match lastUserContent messages with
  | none => .ok messages
  | some user_message =>
    if user_message = "" then .ok messages else
    if exc .extract then .error () else
    let space_keywords := extract_space_keywords user_message
    if space_keywords.isEmpty then .ok messages else
    if categFires apodCat space_keywords && exc .fetchApod then .error () else
    let apodData := if categFires apodCat space_keywords
      then okOrNone (get_nasa_apod env) else none
    if categFires neoCat space_keywords && exc .fetchNeo then .error () else
    let neoData := if categFires neoCat space_keywords
      then okOrNone (get_nasa_neo_today env) else none
    if categFires marsCat space_keywords && exc .fetchMars then .error () else
    let marsData := if categFires marsCat space_keywords
      then okOrNone (get_nasa_mars_weather env) else none
    if categFires alertsCat space_keywords && exc .fetchAlerts then .error () else
    let alertsData := if categFires alertsCat space_keywords
      then okOrNone (get_space_weather_alerts env) else none
    if apodData.isSome || neoData.isSome || marsData.isSome || alertsData.isSome then
      if exc .render then .error () else
      if exc .insert then .error () else
      .ok (⟨"system", renderBriefing space_keywords apodData neoData marsData alertsData⟩ :: messages)
    else
      .ok messages

/-- enhance_prompt_with_nasa_data with its try/except wrapper under an
exception oracle: when any internal step raises, the except handler
returns the original messages list. -/
def enhance_prompt_with_nasa_dataE (exc : EnrStep → Bool) (env : Env)
    (messages : List ChatMessage) : List ChatMessage :=
  match enhanceBody exc env messages with
  | .ok result => result
  | .error _ => messages

/-- The Python str whitespace class, the characters str.isspace() accepts
and str.strip() removes: tab through carriage return (0x09-0x0D), the
file/group/record/unit separators (0x1C-0x1F), space, next line (0x85),
no-break space (0xA0), ogham space mark (0x1680), the en quad through
hair space range (0x2000-0x200A), line and paragraph separators (0x2028,
0x2029), narrow no-break space (0x202F), medium mathematical space
(0x205F) and ideographic space (0x3000). -/
def pyIsSpace (c : Char) : Bool :=
  (0x09 ≤ c.toNat && c.toNat ≤ 0x0D) ||
  (0x1C ≤ c.toNat && c.toNat ≤ 0x1F) ||
  c.toNat == 0x20 || c.toNat == 0x85 || c.toNat == 0xA0 ||
  c.toNat == 0x1680 ||
  (0x2000 ≤ c.toNat && c.toNat ≤ 0x200A) ||
  c.toNat == 0x2028 || c.toNat == 0x2029 || c.toNat == 0x202F ||
  c.toNat == 0x205F || c.toNat == 0x3000

/-- Python str.strip(): drop the Python whitespace class from both ends. -/
def pyStrip (s : String) : String :=
  String.mk (((s.data.dropWhile pyIsSpace).reverse.dropWhile pyIsSpace).reverse)

/-- normalize_model: coalesce an absent identifier to the empty string,
strip it, fall back to the configured default when the result is empty,
lower a case-insensitive match of gpt-5 to the literal gpt-5, and pass
every other identifier through stripped. -/
def normalize_model (defaultModel : String) (model : Option String) : String :=
  let requested := pyStrip (model.getD "")
  if requested = "" then defaultModel
  else if pyLower requested = "gpt-5" then "gpt-5"
  else requested

/-- ensure_messages: conversion of the pydantic messages to role/content
dicts (field-for-field copy). -/
def ensure_messages (messages : List ChatMessage) : List ChatMessage :=
  messages.map (fun msg => ⟨msg.role, msg.content⟩)

/-- generate_reply: buffered reply. Short-circuits without any provider
call when no (non-empty) user message exists; otherwise enriches when the
message has space keywords, normalizes the model, invokes the buffered
chat-completion call, and returns its content (empty string when the
provider returns none). A raised chat-completion exception is caught and
rendered as an error-describing text. -/
def generate_reply (env : Env) (model : String) (messages : List ChatMessage) : String :=
  match lastUserContent messages with
  | none => "No user message found"
  | some user_message =>
    if user_message = "" then "No user message found" else
    let space_keywords := extract_space_keywords user_message
    if space_keywords.isEmpty then
      match env.chatCreate (normalize_model env.defaultModel (some model)) messages with
      | .ok content => content.getD ""
      | .error e => "Error generating reply: " ++ e
    else
      let enhanced_messages := (enhance_prompt_with_nasa_data env messages).1
      match env.chatCreate (normalize_model env.defaultModel (some model)) enhanced_messages with
      | .ok content => content.getD ""
      | .error e => "Error generating reply: " ++ e

/-- The fragments the streaming loop yields from a chunk list: each
chunk's delta content when present and non-empty (Python truthiness of
the content). -/
def emittedChunks (chunks : List (Option String)) : List String :=
  chunks.filterMap (fun chunk => match chunk with
    | some s => if s = "" then none else some s
    | none => none)

/-- The single fallback fragment of the streamer's except handler: the
fixed marker, a newline, and the buffered reply for the same model and
conversation. -/
def fallbackFragment (env : Env) (model : String) (messages : List ChatMessage) : String :=
  "(stream disabled fallback)\n" ++ generate_reply env model messages

/-- stream_tokens_from_openai: the emitted fragment sequence of the
streaming generator. Enrichment and model normalization happen first (in
the model they cannot raise); a setup failure of the streaming call emits
exactly the fallback fragment; a mid-stream raise leaves the fragments
already yielded in place and appends the fallback fragment; a normal run
emits exactly the chunk contents. -/
def stream_tokens_from_openai (env : Env) (model : String)
    (messages : List ChatMessage) : List String :=
  let enhanced_messages := (enhance_prompt_with_nasa_data env messages).1
  let mdl := normalize_model env.defaultModel (some model)
  match env.chatStream mdl enhanced_messages with
  | .setupFail _ => [fallbackFragment env model messages]
  | .run chunks raisesAfter =>
    if raisesAfter then emittedChunks chunks ++ [fallbackFragment env model messages]
    else emittedChunks chunks

/-- Outcome of one HTTP handler: a successful body, or an HTTPException
with status code and detail. -/
inductive HttpOutcome (α : Type) where
  | ok (body : α)
  | httpError (status : Nat) (detail : String)
deriving Repr, DecidableEq

/-- The /api/nasa/earth-imagery handler: 400 when both coordinates are
exactly zero, otherwise 500 carrying the fetcher's error detail on a
tagged failure, otherwise 200 with the imagery payload. -/
def nasa_earth_imagery (env : Env) (lat lon : ℚ) (date : Option String) :
    HttpOutcome ImageryPayload :=
  if lat = 0 ∧ lon = 0 then
    .httpError 400 "Latitude and longitude are required"
  else
    match get_nasa_earth_imagery env lat lon date with
    | .error e => .httpError 500 e
    | .ok payload => .ok payload

/-- The ChatRequest body: messages, an optional model identifier, and the
stream flag (default false). -/
structure ChatRequest where
  messages : List ChatMessage
  model : Option String
  stream : Bool
deriving Repr, DecidableEq

/-- The /api/chat handler (buffered): converts the messages, coalesces a
falsy model field to the configured default, and wraps the buffered reply;
generate_reply is total, so the handler's except branch is unreachable and
the response is always a 200 reply body. -/
def chat_non_streaming (env : Env) (request : ChatRequest) : HttpOutcome String :=
  let messages := ensure_messages request.messages
  let model := match request.model with
    | none => env.defaultModel
    | some s => if s = "" then env.defaultModel else s
  .ok (generate_reply env model messages)

/-- A baseline concrete environment for witnesses: every NASA fetcher
fails with a tagged error, the buffered chat call returns BUF, the stream
runs empty. -/
def stubEnv : Env where
  defaultModel := "gpt-5"
  apod := .error "offline"
  neo := .error "offline"
  mars := .error "offline"
  alerts := .error "offline"
  earthImagery := fun _ _ _ => .error "offline"
  chatCreate := fun _ _ => .ok (some "BUF")
  chatStream := fun _ _ => .run [] false

/-- Environment whose streaming call fails at setup. -/
def envSetupFail : Env :=
  { stubEnv with chatStream := fun _ _ => .setupFail "boom" }

/-- Environment whose streaming call yields one fragment and then raises
mid-stream. -/
def envMidFail : Env :=
  { stubEnv with chatStream := fun _ _ => .run [some "Hello"] true }

/-- Environment whose earth-imagery fetch succeeds with a concrete
payload. -/
def envImagery : Env :=
  { stubEnv with earthImagery := fun _ _ _ => .ok ⟨some "https://img", some "2024-01-01"⟩ }

/-- Claim C1, counterexample: the extractor's vocabulary list contains the
term satellite twice, so the input satellite produces two output entries for
that one vocabulary term, refuting the claim's at-most-one-entry-per-term
part at a concrete input. -/
theorem C1_counterexample :
    extract_space_keywords "satellite" = ["satellite", "satellite"]
    ∧ ¬ (extract_space_keywords "satellite").count "satellite" ≤ 1 := by
  decide

/-- Claim C1, amended: for every input string the Keyword Extractor returns
a sublist of the vocabulary list (hence in vocabulary order), containing a
term exactly when it is a vocabulary entry occurring as a substring of the
lower-cased input, with at most one output entry per occurrence of the term
in the vocabulary list (satellite, listed twice, may appear twice; every
other term at most once); the empty input yields the empty output. -/
theorem C1_amended (s : String) :
    List.Sublist (extract_space_keywords s) space_keywords_vocab
    ∧ (∀ k, k ∈ extract_space_keywords s ↔
        k ∈ space_keywords_vocab ∧ pyIn k (pyLower s) = true)
    ∧ (∀ k, (extract_space_keywords s).count k ≤ space_keywords_vocab.count k)
    ∧ extract_space_keywords "" = [] := by
  refine ⟨List.filter_sublist _, ?_, fun k => (List.filter_sublist _).count_le k, by decide⟩
  intro k
  simp [extract_space_keywords, List.mem_filter]

/-- Claim C3, counterexample: the non-empty requested identifier GPT-5 is
not passed through unchanged; normalization lower-cases it to gpt-5, so
normalization is not the identity on every non-empty input. -/
theorem C3_counterexample :
    normalize_model "default-model" (some "GPT-5") = "gpt-5"
    ∧ ("gpt-5" : String) ≠ "GPT-5" := by
  decide

/-- Claim C3, amended: model-identifier normalization maps an absent
identifier and every identifier that is blank after trimming to the
configured default; any identifier that case-insensitively equals gpt-5
after trimming is mapped to the literal gpt-5; and it is the identity
exactly on the remaining identifiers that are already trimmed. -/
theorem C3_amended (d : String) :
    normalize_model d none = d
    ∧ (∀ s, pyStrip s = "" → normalize_model d (some s) = d)
    ∧ (∀ s, pyStrip s ≠ "" → pyLower (pyStrip s) = "gpt-5" →
        normalize_model d (some s) = "gpt-5")
    ∧ (∀ s, pyStrip s = s → s ≠ "" → pyLower s ≠ "gpt-5" →
        normalize_model d (some s) = s) := by
  refine ⟨rfl, ?_, ?_, ?_⟩
  · intro s h; simp [normalize_model, h]
  · intro s h1 h2; simp [normalize_model, h1, h2]
  · intro s h1 h2 h3; simp [normalize_model, h1, h2, h3]

/-- Witness for C3: the amended normalization theorem evaluated at an
absent identifier, a blank identifier, a case variant of the known model
name, and an ordinary identifier. -/
theorem C3_witness :
    normalize_model "default-model" none = "default-model"
    ∧ normalize_model "default-model" (some "   ") = "default-model"
    ∧ normalize_model "default-model" (some "Gpt-5") = "gpt-5"
    ∧ normalize_model "default-model" (some "my-model") = "my-model" := by
  exact ⟨(C3_amended "default-model").1,
    (C3_amended "default-model").2.1 "   " (by decide),
    (C3_amended "default-model").2.2.1 "Gpt-5" (by decide) (by decide),
    (C3_amended "default-model").2.2.2 "my-model" (by decide) (by decide) (by decide)⟩

/-- Claim C10: the buffered chat endpoint's response is independent of the
request body's stream flag; two requests identical except in that flag get
identical responses. -/
theorem C10_thm (env : Env) (messages : List ChatMessage) (model : Option String) (s1 s2 : Bool) :
    chat_non_streaming env ⟨messages, model, s1⟩ = chat_non_streaming env ⟨messages, model, s2⟩ :=
  rfl

/-- Claim C7: the Context Enricher either returns the conversation
unchanged or returns the original conversation with exactly one synthetic
system-role briefing message inserted at position zero; pre-existing
messages keep their content and relative order. -/
theorem C7_thm (env : Env) (messages : List ChatMessage) :
    (enhance_prompt_with_nasa_data env messages).1 = messages
    ∨ ∃ briefing, (enhance_prompt_with_nasa_data env messages).1
        = ⟨"system", briefing⟩ :: messages := by
  simp only [enhance_prompt_with_nasa_data]
  split
  · left; rfl
  · split
    · left; rfl
    · split
      · left; rfl
      · split <;> split <;> split <;> split <;> split <;>
          first
            | exact Or.inl rfl
            | exact Or.inr ⟨_, rfl⟩

/-- Claim C5: when the conversation has no user-role message, or its most
recent user message yields no vocabulary keywords, the Context Enricher
returns the conversation unchanged and invokes no data fetcher. -/
theorem C5_thm (env : Env) (messages : List ChatMessage)
    (h : ∀ um, lastUserContent messages = some um → extract_space_keywords um = []) :
    enhance_prompt_with_nasa_data env messages = (messages, ⟨0, 0, 0, 0⟩) := by
  simp only [enhance_prompt_with_nasa_data]
  split
  · rfl
  · rename_i um heq
    have hk := h um heq
    split
    · rfl
    · simp [hk]

/-- Witness for C5: a concrete conversation whose user message contains no
vocabulary keyword is returned unchanged with zero fetcher calls. -/
theorem C5_witness :
    enhance_prompt_with_nasa_data stubEnv [⟨"user", "hello there"⟩]
      = ([⟨"user", "hello there"⟩], ⟨0, 0, 0, 0⟩) := by
  apply C5_thm
  intro um hum
  simp only [show lastUserContent [(⟨"user", "hello there"⟩ : ChatMessage)]
    = some "hello there" from rfl] at hum
  cases hum
  decide

/-- Helper: the second component of a conditional whose branches share the
same second component. -/
theorem snd_ite_pair {α β : Type} (P : Prop) [Decidable P] (x y : α) (c : β) :
    (if P then (x, c) else (y, c)).2 = c := by
  split <;> rfl

/-- Claim C4: when the most recent user message's extracted keywords
contain both mars and weather, the Context Enricher invokes the
planetary-weather fetcher and the alerts fetcher each exactly once. -/
theorem C4_thm (env : Env) (messages : List ChatMessage) (um : String)
    (h1 : lastUserContent messages = some um)
    (h2 : "mars" ∈ extract_space_keywords um)
    (h3 : "weather" ∈ extract_space_keywords um) :
    (enhance_prompt_with_nasa_data env messages).2.mars = 1
    ∧ (enhance_prompt_with_nasa_data env messages).2.alerts = 1 := by
  have h0 : um ≠ "" := by
    rintro rfl
    revert h2
    decide
  have hne : (extract_space_keywords um).isEmpty = false := by
    cases hq : extract_space_keywords um with
    | nil => exact absurd (hq ▸ h2) (List.not_mem_nil _)
    | cons a l => rfl
  have hm : categFires marsCat (extract_space_keywords um) = true := by
    unfold categFires
    rw [List.any_eq_true]
    exact ⟨"mars", h2, by decide⟩
  have ha : categFires alertsCat (extract_space_keywords um) = true := by
    unfold categFires
    rw [List.any_eq_true]
    exact ⟨"weather", h3, by decide⟩
  have hne' : ¬ ((extract_space_keywords um).isEmpty = true) := by simp [hne]
  simp only [enhance_prompt_with_nasa_data, h1]
  rw [if_neg h0, if_neg hne', hm, ha]
  rw [snd_ite_pair]
  exact ⟨rfl, rfl⟩

/-- Witness for C4: the message mars weather triggers exactly one Mars
weather fetch and exactly one alerts fetch. -/
theorem C4_witness :
    (enhance_prompt_with_nasa_data stubEnv [⟨"user", "mars weather"⟩]).2.mars = 1
    ∧ (enhance_prompt_with_nasa_data stubEnv [⟨"user", "mars weather"⟩]).2.alerts = 1 :=
  C4_thm stubEnv [⟨"user", "mars weather"⟩] "mars weather" rfl (by decide) (by decide)

/-- Claim C6: the earth-imagery endpoint returns the 400 validation error
exactly when both coordinates are zero; otherwise it returns the payload
with status 200 when the fetch succeeds and a 500 carrying the error
detail when the fetch fails. -/
theorem C6_thm (env : Env) (lat lon : ℚ) (date : Option String) :
    (nasa_earth_imagery env lat lon date
        = .httpError 400 "Latitude and longitude are required" ↔ (lat = 0 ∧ lon = 0))
    ∧ (∀ p, ¬(lat = 0 ∧ lon = 0) → env.earthImagery lat lon date = .ok p →
        nasa_earth_imagery env lat lon date = .ok p)
    ∧ (∀ e, ¬(lat = 0 ∧ lon = 0) → env.earthImagery lat lon date = .error e →
        nasa_earth_imagery env lat lon date = .httpError 500 e) := by
  unfold nasa_earth_imagery get_nasa_earth_imagery
  refine ⟨⟨?_, ?_⟩, ?_, ?_⟩
  · intro h
    by_cases hz : lat = 0 ∧ lon = 0
    · exact hz
    · exfalso
      rw [if_neg hz] at h
      cases he : env.earthImagery lat lon date <;> rw [he] at h <;> simp at h
  · intro hz
    rw [if_pos hz]
  · intro p hz hp
    rw [if_neg hz, hp]
  · intro e hz he
    rw [if_neg hz, he]

/-- Witness for C6: concrete evaluations at lat=lon=0 (400), at (10, 20)
with a succeeding fetch (200 with payload), and at (10, 20) with a failing
fetch (500 with detail). -/
theorem C6_witness :
    nasa_earth_imagery envImagery 0 0 none
      = .httpError 400 "Latitude and longitude are required"
    ∧ nasa_earth_imagery envImagery 10 20 none = .ok ⟨some "https://img", some "2024-01-01"⟩
    ∧ nasa_earth_imagery stubEnv 10 20 none = .httpError 500 "offline" :=
  ⟨(C6_thm envImagery 0 0 none).1.2 ⟨rfl, rfl⟩,
   (C6_thm envImagery 10 20 none).2.1 _ (by norm_num) rfl,
   (C6_thm stubEnv 10 20 none).2.2 _ (by norm_num) rfl⟩

/-- Claim C8: the buffered Reply Generator always returns a text result
and never propagates an exception; every run yields the fixed no-user
text, the content of a successful chat-completion call, or an
error-describing text built from the raised error. -/
theorem C8_thm (env : Env) (model : String) (messages : List ChatMessage) :
    generate_reply env model messages = "No user message found"
    ∨ (∃ mdl ms content, env.chatCreate mdl ms = .ok content
        ∧ generate_reply env model messages = content.getD "")
    ∨ (∃ mdl ms e, env.chatCreate mdl ms = .error e
        ∧ generate_reply env model messages = "Error generating reply: " ++ e) := by
  simp only [generate_reply]
  split
  · exact Or.inl rfl
  · split
    · exact Or.inl rfl
    · split
      · cases hc : env.chatCreate (normalize_model env.defaultModel (some model)) messages with
        | ok content => exact Or.inr (Or.inl ⟨_, _, content, hc, rfl⟩)
        | error e => exact Or.inr (Or.inr ⟨_, _, e, hc, rfl⟩)
      · cases hc : env.chatCreate (normalize_model env.defaultModel (some model))
            ((enhance_prompt_with_nasa_data env messages).1) with
        | ok content => exact Or.inr (Or.inl ⟨_, _, content, hc, rfl⟩)
        | error e => exact Or.inr (Or.inr ⟨_, _, e, hc, rfl⟩)

/-- Claim C2, amended: when the streaming chat-completion call fails at
setup the emitted sequence is exactly one fallback fragment, the fixed
marker followed by the buffered Reply Generator's output for the same
model and conversation; when the stream raises mid-sequence the fragments
already yielded remain in place and the same single fallback fragment is
appended after them. -/
theorem C2_amended (env : Env) (model : String) (messages : List ChatMessage) :
    (∀ e, env.chatStream (normalize_model env.defaultModel (some model))
          (enhance_prompt_with_nasa_data env messages).1 = .setupFail e →
        stream_tokens_from_openai env model messages
          = ["(stream disabled fallback)\n" ++ generate_reply env model messages])
    ∧ (∀ chunks, env.chatStream (normalize_model env.defaultModel (some model))
          (enhance_prompt_with_nasa_data env messages).1 = .run chunks true →
        stream_tokens_from_openai env model messages
          = emittedChunks chunks
            ++ ["(stream disabled fallback)\n" ++ generate_reply env model messages]) := by
  constructor
  · intro e he
    simp only [stream_tokens_from_openai, he, fallbackFragment]
  · intro chunks hc
    simp only [stream_tokens_from_openai, hc, fallbackFragment, if_true]

/-- Claim C2, counterexample: with a stream that yields one fragment and
then raises, the emitted sequence is the partial fragment followed by the
fallback fragment, is not exactly one fallback fragment, and the emitted
body does not start with the fallback marker. -/
theorem C2_counterexample :
    stream_tokens_from_openai envMidFail "m" [⟨"user", "hi"⟩]
      = ["Hello", "(stream disabled fallback)\nBUF"]
    ∧ stream_tokens_from_openai envMidFail "m" [⟨"user", "hi"⟩]
      ≠ [fallbackFragment envMidFail "m" [⟨"user", "hi"⟩]]
    ∧ ("(stream disabled fallback)".data.isPrefixOf
        (String.join (stream_tokens_from_openai envMidFail "m" [⟨"user", "hi"⟩])).data) = false := by
  decide

/-- Witness for C2: concrete runs of the amended streamer theorem, one
with a setup failure and one with a mid-stream raise. -/
theorem C2_witness :
    stream_tokens_from_openai envSetupFail "m" [⟨"user", "hi"⟩]
      = ["(stream disabled fallback)\nBUF"]
    ∧ stream_tokens_from_openai envMidFail "m2" [⟨"user", "hi"⟩]
      = ["Hello", "(stream disabled fallback)\nBUF"] := by
  constructor
  · have h := (C2_amended envSetupFail "m" [⟨"user", "hi"⟩]).1 "boom" rfl
    rw [h]
    decide
  · have h := (C2_amended envMidFail "m2" [⟨"user", "hi"⟩]).2 [some "Hello"] rfl
    rw [h]
    decide

/-- Helper: whenever the enricher's try body completes without an internal
exception, its result coincides with the exception-free enricher run. -/
theorem enhanceBody_ok_eq (exc : EnrStep → Bool) (env : Env) (messages : List ChatMessage)
    (result : List ChatMessage) (h : enhanceBody exc env messages = .ok result) :
    result = (enhance_prompt_with_nasa_data env messages).1 := by
  simp only [enhanceBody] at h
  simp only [enhance_prompt_with_nasa_data]
  by_cases c1 : exc .locate = true
  · rw [if_pos c1] at h
    exact Except.noConfusion h
  rw [if_neg c1] at h
  cases hl : lastUserContent messages with
  | none =>
    simp only [hl] at h
    simp only [hl]
    injection h with h
    exact h.symm
  | some um =>
    simp only [hl] at h
    simp only [hl]
    by_cases c2 : um = ""
    · rw [if_pos c2] at h
      rw [if_pos c2]
      injection h with h
      exact h.symm
    rw [if_neg c2] at h
    rw [if_neg c2]
    by_cases c3 : exc .extract = true
    · rw [if_pos c3] at h
      exact Except.noConfusion h
    rw [if_neg c3] at h
    by_cases c4 : (extract_space_keywords um).isEmpty = true
    · rw [if_pos c4] at h
      rw [if_pos c4]
      injection h with h
      exact h.symm
    rw [if_neg c4] at h
    rw [if_neg c4]
    by_cases c5 : (categFires apodCat (extract_space_keywords um) && exc .fetchApod) = true
    · rw [if_pos c5] at h
      exact Except.noConfusion h
    rw [if_neg c5] at h
    by_cases c6 : (categFires neoCat (extract_space_keywords um) && exc .fetchNeo) = true
    · rw [if_pos c6] at h
      exact Except.noConfusion h
    rw [if_neg c6] at h
    by_cases c7 : (categFires marsCat (extract_space_keywords um) && exc .fetchMars) = true
    · rw [if_pos c7] at h
      exact Except.noConfusion h
    rw [if_neg c7] at h
    by_cases c8 : (categFires alertsCat (extract_space_keywords um) && exc .fetchAlerts) = true
    · rw [if_pos c8] at h
      exact Except.noConfusion h
    rw [if_neg c8] at h
    by_cases c9 :
      ((if categFires apodCat (extract_space_keywords um) = true
          then okOrNone (get_nasa_apod env) else none).isSome
        || (if categFires neoCat (extract_space_keywords um) = true
          then okOrNone (get_nasa_neo_today env) else none).isSome
        || (if categFires marsCat (extract_space_keywords um) = true
          then okOrNone (get_nasa_mars_weather env) else none).isSome
        || (if categFires alertsCat (extract_space_keywords um) = true
          then okOrNone (get_space_weather_alerts env) else none).isSome) = true
    · rw [if_pos c9] at h
      rw [if_pos c9]
      by_cases c10 : exc .render = true
      · rw [if_pos c10] at h
        exact Except.noConfusion h
      rw [if_neg c10] at h
      by_cases c11 : exc .insert = true
      · rw [if_pos c11] at h
        exact Except.noConfusion h
      rw [if_neg c11] at h
      injection h with h
      exact h.symm
    · rw [if_neg c9] at h
      rw [if_neg c9]
      injection h with h
      exact h.symm

/-- Claim C9: the Context Enricher is exception-atomic; if any internal
step raises, the handler returns the original conversation unmodified, and
every run returns either the original conversation or exactly the fully
enriched conversation of the exception-free run, never a partial one. -/
theorem C9_thm (exc : EnrStep → Bool) (env : Env) (messages : List ChatMessage) :
    (enhanceBody exc env messages = .error () →
      enhance_prompt_with_nasa_dataE exc env messages = messages)
    ∧ (enhance_prompt_with_nasa_dataE exc env messages = messages
       ∨ enhance_prompt_with_nasa_dataE exc env messages
           = (enhance_prompt_with_nasa_data env messages).1) := by
  constructor
  · intro he
    simp only [enhance_prompt_with_nasa_dataE, he]
  · cases hb : enhanceBody exc env messages with
    | error u =>
      left
      simp only [enhance_prompt_with_nasa_dataE, hb]
    | ok r =>
      right
      simp only [enhance_prompt_with_nasa_dataE, hb]
      exact enhanceBody_ok_eq exc env messages r hb

/-- Witness for C9: under an oracle that raises at every step, the
enricher returns the original conversation. -/
theorem C9_witness :
    enhance_prompt_with_nasa_dataE (fun _ => true) stubEnv [⟨"user", "mars"⟩]
      = [⟨"user", "mars"⟩] :=
  (C9_thm (fun _ => true) stubEnv [⟨"user", "mars"⟩]).1 rfl
